import Mathlib

/-!
Verification of the retrieval / reranking / caching / generation-orchestration
core of the mamaope_legal backend.

The definitions below are a shallow embedding of
`src/backend/src/mamaope_legal/services/vectordb_service.py` and
`src/backend/src/mamaope_legal/services/conversational_service.py`:
pure Python functions become Lean functions, the module-level response cache
becomes explicit state passing, float scores become exact rationals, and the
external services (Milvus client, embedding client, GenAI client) become
oracles supplied through environment records.  Dictionary `.get` accesses with
defaults are modelled with `Option` fields and `getD`.
-/

/-- One record of a Milvus search hit's `entity` payload
(`output_fields=["content", "file_path", "display_page_number"]`). -/
structure Entity where
  content : Option String := none
  file_path : Option String := none
  display_page_number : Option String := none
deriving DecidableEq

/-- One Milvus search-hit dictionary as consumed by
`_apply_mmr_diversity_reranking`: a reported `distance`, a nested `entity`
payload, and the `score` key the reranker writes in place.  Absent keys are
`none`; the Python `.get(key, default)` accesses become `getD`. -/
structure Hit where
  distance : Option ℚ := none
  entity : Option Entity := none
  score : Option ℚ := none
deriving DecidableEq

/-- `x.get('distance', 0)` / `x.get('distance', 0.0)`. -/
def distanceOf (h : Hit) : ℚ := h.distance.getD 0

/-- `candidate.get('entity', \x7b\x7d).get('file_path', 'unknown')`. -/
def sourceOf (h : Hit) : String :=
  match h.entity with
  | some e => e.file_path.getD "unknown"
  | none => "unknown"

/-- `result['score'] = result.get('distance', 0.0)` — the in-place write the
reranker performs on every hit before selection begins. -/
def setScore (h : Hit) : Hit := { h with score := some (h.distance.getD 0) }

/-- Stable insertion into a descending-by-distance list: the inserted element
goes after every strictly larger element and before equal ones, matching the
stability of Python's `list.sort(key=..., reverse=True)` when the insertion
order below is respected. -/
def insertByDistanceDesc (x : Hit) : List Hit → List Hit
  | [] => [x]
  | y :: ys =>
    if distanceOf x < distanceOf y then y :: insertByDistanceDesc x ys
    else x :: y :: ys

/-- `remaining.sort(key=lambda x: x.get('distance', 0), reverse=True)`:
stable descending sort by reported distance. -/
def sortByDistanceDesc : List Hit → List Hit
  | [] => []
  | x :: xs => insertByDistanceDesc x (sortByDistanceDesc xs)

/-- The progressive diversity bonus of the reranker, as a function of the
current `source_counts` entry for the candidate's source
(`0 → 1.5, 1 → 1.0, 2 → 0.5, otherwise → 0.2`). -/
def diversityBonus (sourceCount : Nat) : ℚ :=
  if sourceCount = 0 then 3/2
  else if sourceCount = 1 then 1
  else if sourceCount = 2 then 1/2
  else 1/5

/-- `mmr_score = (lambda_param * relevance) + ((1 - lambda_param) * diversity_bonus)`. -/
def mmrScore (lam : ℚ) (counts : String → Nat) (c : Hit) : ℚ :=
  lam * distanceOf c + (1 - lam) * diversityBonus (counts (sourceOf c))

/-- The inner `for idx, candidate in enumerate(remaining)` scan: skip
candidates whose source already reached `max_chunks_per_source`, otherwise
keep the strictly best `mmr_score` seen so far (first index wins ties because
the update requires `mmr_score > best_score`).  The accumulator is `none`
while `best_score` is still `-inf`. -/
def findBestAux (lam : ℚ) (cap : Nat) (counts : String → Nat) :
    List Hit → Nat → Option (ℚ × Nat × Hit) → Option (ℚ × Nat × Hit)
  | [], _, best => best
  | c :: rest, idx, best =>
    if cap ≤ counts (sourceOf c) then
      -- `if source_count >= max_chunks_per_source: continue`
      -- (the source repeats this check twice; the repeat is a no-op)
      findBestAux lam cap counts rest (idx + 1) best
    else
      let s := mmrScore lam counts c
      let best' :=
        match best with
        | none => some (s, idx, c)
        | some (bs, bi, bc) => if bs < s then some (s, idx, c) else some (bs, bi, bc)
      findBestAux lam cap counts rest (idx + 1) best'

/-- The whole candidate scan of one `while` iteration: returns the best
`(mmr_score, best_idx, candidate)` or `none` when no candidate is eligible. -/
def findBest (lam : ℚ) (cap : Nat) (counts : String → Nat) (remaining : List Hit) :
    Option (ℚ × Nat × Hit) :=
  findBestAux lam cap counts remaining 0 none

/-- The `while len(selected) < k and remaining:` loop of
`_apply_mmr_diversity_reranking`, with explicit fuel (the loop pops one
element of `remaining` per iteration, so `remaining.length` fuel is enough).
Returns the selected list together with the final `source_counts` state.
NOTE the selected candidate's source count is incremented **twice** — the
source repeats `source_counts[source_path] = source_counts.get(source_path, 0) + 1`
on two consecutive statements. -/
def mmrLoop (lam : ℚ) (cap k : Nat) :
    Nat → List Hit → (String → Nat) → List Hit → List Hit × (String → Nat)
  | 0, _, counts, selected => (selected, counts)
  | fuel + 1, remaining, counts, selected =>
    if selected.length < k ∧ remaining ≠ [] then
      match findBest lam cap counts remaining with
      | some (_, idx, c) =>
        let sp := sourceOf c
        let counts1 : String → Nat := fun s => if s = sp then counts s + 1 else counts s
        let counts2 : String → Nat := fun s => if s = sp then counts1 s + 1 else counts1 s
        mmrLoop lam cap k fuel (remaining.eraseIdx idx) counts2 (selected ++ [c])
      | none => (selected, counts)
    else (selected, counts)

/-- `_apply_mmr_diversity_reranking(search_results, k, lambda_param)`.
Because the Python function mutates the caller's hit dictionaries in place
(the `score` write) and returns a selection of those same objects, the
embedding returns a pair: the post-call state of the caller's list, and the
returned selection. -/
def applyMmrDiversityReranking (searchResults : List Hit) (k : Nat) (lam : ℚ) :
    List Hit × List Hit :=
  if searchResults = [] ∨ searchResults.length ≤ k then
    -- `if not search_results or len(search_results) <= k: return search_results`
    (searchResults, searchResults)
  else
    let scored := searchResults.map setScore
    match sortByDistanceDesc scored with
    | [] => (scored, [])  -- unreachable: the guard above ensures nonemptiness
    | first :: rest =>
      -- seed with the top hit, `source_counts[source_path] = 1`
      let counts0 : String → Nat := fun s => if s = sourceOf first then 1 else 0
      let cap := max 2 (k / 4)  -- `max_chunks_per_source = max(2, k // 4)`
      (scored, (mmrLoop lam cap k rest.length rest counts0 [first]).1)

/-- Modelled from the spec: the selection loop as the spec and claim C2
describe it — identical to `mmrLoop` except that selecting a candidate
increments its source's selection count by exactly one (the code performs the
increment twice).  Used only to exhibit the divergence of the code from the
claimed behaviour. -/
def mmrLoopSingleIncrement (lam : ℚ) (cap k : Nat) :
    Nat → List Hit → (String → Nat) → List Hit → List Hit × (String → Nat)
  | 0, _, counts, selected => (selected, counts)
  | fuel + 1, remaining, counts, selected =>
    if selected.length < k ∧ remaining ≠ [] then
      match findBest lam cap counts remaining with
      | some (_, idx, c) =>
        let sp := sourceOf c
        let counts1 : String → Nat := fun s => if s = sp then counts s + 1 else counts s
        mmrLoopSingleIncrement lam cap k fuel (remaining.eraseIdx idx) counts1 (selected ++ [c])
      | none => (selected, counts)
    else (selected, counts)

/-- Modelled from the spec: `_apply_mmr_diversity_reranking` as the spec and
claim C2 describe it, using the increment-by-one loop. -/
def applyMmrSingleIncrement (searchResults : List Hit) (k : Nat) (lam : ℚ) : List Hit :=
  if searchResults = [] ∨ searchResults.length ≤ k then searchResults
  else
    let scored := searchResults.map setScore
    match sortByDistanceDesc scored with
    | [] => []
    | first :: rest =>
      let counts0 : String → Nat := fun s => if s = sourceOf first then 1 else 0
      let cap := max 2 (k / 4)
      (mmrLoopSingleIncrement lam cap k rest.length rest counts0 [first]).1

/-- `os.path.basename`: the component after the last path separator. -/
def basename (p : String) : String := (p.splitOn "/").getLastD p

/-- Stable insertion for an ascending lexicographic sort of strings. -/
def insertStrAsc (x : String) : List String → List String
  | [] => [x]
  | y :: ys => if y < x then y :: insertStrAsc x ys else x :: y :: ys

/-- `sorted(...)` on a list of strings: stable ascending lexicographic. -/
def sortStrAsc : List String → List String
  | [] => []
  | x :: xs => insertStrAsc x (sortStrAsc xs)

/-- The outcome of `search_legal_knowledge`: the first component of the
returned pair is either a human-readable message string (collection missing,
zero hits, internal exception) or an actual list of entity chunks — the type
records that the chunks slot is not uniformly a list across outcomes. -/
inductive ChunksOrMessage where
  | message (s : String)
  | chunks (l : List Entity)
deriving DecidableEq

/-- The external collaborators of `ZillizService.search_legal_knowledge`:
whether the collection exists, the embedding call (which may raise), and the
Milvus `client.search` call (taking the query vector and the `limit`
argument, and possibly raising). -/
structure SearchEnv where
  collectionExists : Bool
  embedding : Except String (List ℚ)
  searchCall : List ℚ → Nat → Except String (List (List Hit))

/-- `ZillizService.search_legal_knowledge(query, k)`.  The two `raise`-able
steps inside the `try` (embedding generation and the vector search) are the
`Except.error` cases of the environment; both fall to the one `except` clause
that returns the "An error occurred during search" message. -/
def search_legal_knowledge (env : SearchEnv) (k : Nat) : ChunksOrMessage × List String :=
  if ¬ env.collectionExists then
    (.message "Collection not found. Please ensure it is created and named correctly.", [])
  else
    match env.embedding with
    | .error e => (.message ("An error occurred during search: " ++ e), [])
    | .ok queryEmbedding =>
      -- `retrieve_k = min(k * 6, 50)`
      match env.searchCall queryEmbedding (min (k * 6) 50) with
      | .error e => (.message ("An error occurred during search: " ++ e), [])
      | .ok searchResults =>
        if searchResults = [] ∨ searchResults.headD [] = [] then
          (.message "No relevant legal information found in the knowledge base.", [])
        else
          let rerankedResults :=
            (applyMmrDiversityReranking (searchResults.headD []) k (1/2)).2
          -- Step 4: keep entities with non-empty content, collect source basenames
          let rerankedEntities := rerankedResults.filterMap fun hit =>
            match hit.entity with
            | some e =>
              match e.content with
              | some c => if c ≠ "" then some e else none
              | none => none
            | none => none
          let sources :=
            (rerankedEntities.map fun e => basename (e.file_path.getD "Unknown document")).dedup
          if rerankedEntities = [] then (.chunks [], [])
          else (.chunks rerankedEntities, sortStrAsc sources)

/-! ## Response cache (`conversational_service.py`)

`RESPONSE_CACHE` is a module-level `dict` mapping cache keys to
`(response, timestamp)` pairs; it is modelled as an insertion-ordered
association list threaded through the functions that touch it.  Timestamps
are abstract clock readings measured in minutes, so that
`datetime.now() - timestamp < timedelta(minutes=CACHE_TTL_MINUTES)` becomes
`now - timestamp < CACHE_TTL_MINUTES`. -/

abbrev Cache := List (String × String × Nat)

/-- `core/constants.py`: `PROMPT_TOKEN_LIMIT = 16000`. -/
def PROMPT_TOKEN_LIMIT : Nat := 16000

/-- `core/constants.py`: `CACHE_TTL_MINUTES = 60`. -/
def CACHE_TTL_MINUTES : Nat := 60

/-- `core/constants.py`: `MAX_CACHE_SIZE = 500`. -/
def MAX_CACHE_SIZE : Nat := 500

/-- `_generate_cache_key(query, case_data)`:
`hashlib.md5(f"{query}|{case_data}".lower().strip().encode()).hexdigest()`.
The MD5 digest is modelled as the digested (lower-cased, trimmed) text
itself: an injective stand-in that preserves the key-derivation contract
"same normalized (query, case_data) — same key". -/
def _generate_cache_key (query caseData : String) : String :=
  ((query ++ "|" ++ caseData).toLower).trim

/-- `dict` assignment `RESPONSE_CACHE[key] = (resp, now)`: update in place if
the key exists (position preserved), otherwise append. -/
def dictInsert (cache : Cache) (key resp : String) (now : Nat) : Cache :=
  if cache.any (fun e => e.1 == key) then
    cache.map (fun e => if e.1 == key then (key, resp, now) else e)
  else cache ++ [(key, resp, now)]

/-- Stable insertion for sorting cache entries by timestamp ascending. -/
def insertByTsAsc (x : String × String × Nat) : Cache → Cache
  | [] => [x]
  | y :: ys => if y.2.2 < x.2.2 then y :: insertByTsAsc x ys else x :: y :: ys

/-- `sorted(RESPONSE_CACHE.keys(), key=lambda k: RESPONSE_CACHE[k][1])`:
stable ascending sort of the entries by timestamp. -/
def sortByTsAsc : Cache → Cache
  | [] => []
  | x :: xs => insertByTsAsc x (sortByTsAsc xs)

/-- `_get_cached_response(cache_key)`: return the cached response when present
and not expired; lazily delete an expired entry.  Returns the response (or
`none`) together with the possibly-shrunk cache. -/
def _get_cached_response (now : Nat) (cache : Cache) (key : String) :
    Option String × Cache :=
  match cache.find? (fun e => e.1 == key) with
  | some (_, response, timestamp) =>
    if now - timestamp < CACHE_TTL_MINUTES then (some response, cache)
    else (none, cache.filter (fun e => ¬ (e.1 == key)))
  | none => (none, cache)

/-- `_cache_response(cache_key, response)`: store with the current timestamp,
then, if the cache exceeds `MAX_CACHE_SIZE`, evict the 20 oldest entries by
timestamp. -/
def _cache_response (now : Nat) (cache : Cache) (key resp : String) : Cache :=
  let c := dictInsert cache key resp now
  if MAX_CACHE_SIZE < c.length then
    let oldestKeys := ((sortByTsAsc c).take 20).map (fun e => e.1)
    c.filter (fun e => ¬ oldestKeys.contains e.1)
  else c

/-! ## Prompt assembly (`conversational_service.py`)

The module-level `PROMPT` template contains two placeholders, with
`\x7bcontext\x7d` occurring twice (once inside the grounding directive and
once under the EVIDENCE BASE heading) and `\x7bsources\x7d` once;
`PROMPT.format(sources=..., context=...)` substitutes every occurrence, so
the formatted prompt is the concatenation of the four constant segments
below interleaved with the substituted values. -/

def PROMPT_SEG1 : String :=
  "\nYOU ARE **Mamaope Legal**, a professional AI legal assistant specializing in Ugandan and East African law.\n\n---\n\n### OBJECTIVE\nProvide clear, factual, and contextually rich legal information grounded **only** in the EVIDENCE BASE below.\n\nYour responses should sound like a well-trained legal analyst explaining a law to either a lawyer or an informed citizen — accurate, explanatory, but never opinionated.\n\n---\n\n### CORE DIRECTIVES\n\n1.  **ABSOLUTE GROUNDING (CRITICAL):**\n    - You **MUST** base your entire response *only* on the information inside the \"EVIDENCE BASE\" (the "

def PROMPT_SEG2 : String :=
  " provided below).\n    - **DO NOT** use any outside knowledge, and **DO NOT** invent information.\n    - If the answer is not in the EVIDENCE BASE, you **MUST** state: \"I could not find specific information about the topic.\"\n\n2.  **LEGAL CITATION FORMAT (CRITICAL):**\n    - Always include citations exactly as they appear in the evidence, e.g.:  \n       “According to **Article 80(1)** of the Constitution of Uganda.”\n    - You may refer to articles, sections, or chapters naturally.\n    - List references at the end of your response under a heading **References:**\n    - **DO NOT** use phrases like \"According to the context...\" or \"The provided text...\".\n    - **Correct Example:** \"The right to a fair hearing is guaranteed [Source: Constitution of the Republic of Uganda, Article 9, Section 2].\"\n    - **Incorrect Example:** \"The context states that the right to a fair hearing is guaranteed.\"\n\n3.  **PERSONA & TONE:**\n    - You are a professional, objective, and neutral legal information provider.\n    - Your tone must be formal and direct.\n    - **ONLY** provide legal *information* (e.g., \"Article X states that...\").\n\n4.  **FORMATTING:**\n    - Use headings, bold text, and bullet points for clarity.\n    - Place a blank line before and after all headings.\n\n---\n\n### CRITICAL PROHIBITIONS\n-   **NEVER** provide an opinion.\n-   **NEVER** invent an article or section number.\n\n---\n\n**AVAILABLE SOURCES:** "

def PROMPT_SEG3 : String :=
  "\n**EVIDENCE BASE:**\n"

def PROMPT_SEG4 : String :=
  "\n"

/-- `PROMPT.format(sources=sources_text, context=optimized_context)`. -/
def promptTemplateFormat (sources context : String) : String :=
  PROMPT_SEG1 ++ context ++ PROMPT_SEG2 ++ sources ++ PROMPT_SEG3 ++ context ++ PROMPT_SEG4

/-- One enriched retrieval chunk as produced by
`vectorstore_manager.enrich_retrieval_results` and consumed by
`optimize_context_for_llm`: the dict has keys `label`, `content`, `page` and
`file_path`.  It never carries a `display_page_number` key, so that field is
kept as an `Option` defaulting to `none` and the
`chunk.get("display_page_number", "?")` access in the optimizer becomes
`getD "?"`. -/
structure EnrichedChunk where
  label : String
  content : String
  page : String
  file_path : String
  display_page_number : Option String
deriving DecidableEq

/-- `optimize_context_for_llm(chunks, max_chunks)`: format the top
`max_chunks` chunks as SOURCE-tagged blocks joined by blank lines. -/
def optimize_context_for_llm (chunks : List EnrichedChunk) (maxChunks : Nat) : String :=
  String.intercalate "\n\n" ((chunks.take maxChunks).map fun chunk =>
    "[SOURCE: " ++ basename chunk.file_path ++ " (Page: "
      ++ chunk.display_page_number.getD "?" ++ ")]\n" ++ chunk.content.trim)

/-- The exact prompt string `generate_response` assembles before the token
budget check: the formatted template followed by the query, client info, and
previous-conversation blocks (`chat_history or 'No previous conversation'`). -/
def assembledPrompt (query chatHistory caseData : String)
    (context : List EnrichedChunk) (actualSources : List String) : String :=
  let optimizedContext := optimize_context_for_llm context 3
  let sourcesText :=
    if actualSources = [] then "No sources available"
    else String.intercalate ", " actualSources
  promptTemplateFormat sourcesText optimizedContext
    ++ "\n\nQUERY: " ++ query
    ++ "\n\nCLIENT INFO: " ++ caseData
    ++ "\n\nPREVIOUS CONVERSATION: "
    ++ (if chatHistory == "" then "No previous conversation" else chatHistory)

/-! ## Generation orchestrator (`generate_response`) -/

/-- The first candidate of a model response: the texts of its content parts
(`[]` models a candidate with missing or empty `content.parts`) and its
finish reason rendered as a string. -/
structure Candidate where
  parts : List String
  finish_reason : String
deriving DecidableEq

/-- The external collaborators of `generate_response`:
`search_all_collections` (whose `RuntimeError` when the vector store is not
initialized is the `Except.error` case — the only statement under the
top-level `try` that can raise), `client.models.count_tokens` and
`client.models.generate_content`, the latter two as functions of the prompt
they receive.  `generation` returning `Except.ok none` models a response
with no candidates. -/
structure GenEnv where
  retrieval : Except String (List EnrichedChunk × List String)
  tokenCount : String → Except String Nat
  generation : String → Except String (Option Candidate)

/-- The observable outcome of one `generate_response` call: the returned
`(answer, sources, status)` triple, the post-call state of the module-level
`RESPONSE_CACHE`, and a trace of which steps ran (whether the cache was
consulted or written, whether retrieval and content generation were
invoked, and the cache key in scope at return time). -/
structure GenOutcome where
  answer : String
  sources : List String
  status : String
  cache : Cache
  usedCacheKey : Option String
  readCache : Bool
  wroteCache : Bool
  calledRetrieval : Bool
  calledGenerate : Bool
deriving DecidableEq

/-- `"\n\n**[WARNING: ...]**"` appended on `finish_reason == 'MAX_TOKENS'`. -/
def TRUNCATION_WARNING : String :=
  "\n\n**[WARNING: The response was truncated because it exceeded the maximum output length. Please ask a more specific follow-up question if needed.]**"

/-- `"\n\n**[WARNING: ...]**"` appended on `finish_reason == 'SAFETY'`. -/
def SAFETY_WARNING : String :=
  "\n\n**[WARNING: The response was partially blocked by safety filters.]**"

/-- The model-call and response-processing tail of `generate_response`:
generate content, classify the candidate, append finish-reason warnings
(`MAX_TOKENS` and `SAFETY` only — the `RECITATION` branch in the source just
logs and appends nothing), cache the final text when a cache key was computed
and the text is non-empty, and return with status `"success"`. -/
def generateModelStep (env : GenEnv) (now : Nat) (cache : Cache)
    (cacheKey : Option String) (didRead : Bool) (actualSources : List String)
    (fullPrompt : String) : GenOutcome :=
  match env.generation fullPrompt with
  | .error e =>
    { answer := "Failed to start content generation: " ++ e,
      sources := actualSources, status := "error", cache := cache,
      usedCacheKey := cacheKey, readCache := didRead, wroteCache := false,
      calledRetrieval := true, calledGenerate := true }
  | .ok none =>
    -- `response` falsy or `response.candidates` empty
    { answer := "Content was blocked. Please rephrase your legal query with more appropriate terminology.",
      sources := actualSources, status := "error", cache := cache,
      usedCacheKey := cacheKey, readCache := didRead, wroteCache := false,
      calledRetrieval := true, calledGenerate := true }
  | .ok (some candidate) =>
    match candidate.parts with
    | [] =>
      -- candidate exists but has no content parts
      { answer := "Content was blocked. Please rephrase your legal query with more appropriate terminology.",
        sources := actualSources, status := "error", cache := cache,
        usedCacheKey := cacheKey, readCache := didRead, wroteCache := false,
        calledRetrieval := true, calledGenerate := true }
    | p :: _ =>
      let text := p.trim  -- `candidate.content.parts[0].text.strip()`
      let fullResponseText :=
        if candidate.finish_reason == "MAX_TOKENS" then text ++ TRUNCATION_WARNING
        else if candidate.finish_reason == "SAFETY" then text ++ SAFETY_WARNING
        else text  -- RECITATION / STOP / anything else: logging only
      -- `if cache_key and full_response_text: _cache_response(...)`
      let written :=
        match cacheKey with
        | some key =>
          if fullResponseText == "" then (cache, false)
          else (_cache_response now cache key fullResponseText, true)
        | none => (cache, false)
      { answer := fullResponseText, sources := actualSources,
        status := "success", cache := written.1, usedCacheKey := cacheKey,
        readCache := didRead, wroteCache := written.2,
        calledRetrieval := true, calledGenerate := true }

/-- The part of `generate_response` after the cache check: retrieve context
(a raising `search_all_collections` falls through to the top-level `except`,
which returns the exception text inside the answer), assemble the prompt,
run the best-effort token budget check, and hand over to the model step. -/
def generateAfterCache (env : GenEnv) (now : Nat) (cache : Cache)
    (cacheKey : Option String) (didRead : Bool)
    (query chatHistory caseData : String) : GenOutcome :=
  match env.retrieval with
  | .error e =>
    -- top-level `except Exception as e` handler:
    -- `return f"An unexpected error occurred: \x7bstr(e)\x7d", actual_sources, "error"`
    { answer := "An unexpected error occurred: " ++ e, sources := [],
      status := "error", cache := cache, usedCacheKey := cacheKey,
      readCache := didRead, wroteCache := false,
      calledRetrieval := true, calledGenerate := false }
  | .ok (context, actualSources) =>
    let fullPrompt := assembledPrompt query chatHistory caseData context actualSources
    match env.tokenCount fullPrompt with
    | .ok n =>
      if PROMPT_TOKEN_LIMIT < n then
        { answer := "Error: Input prompt exceeds token limit ("
            ++ toString n ++ "/" ++ toString PROMPT_TOKEN_LIMIT ++ ").",
          sources := actualSources, status := "error", cache := cache,
          usedCacheKey := cacheKey, readCache := didRead, wroteCache := false,
          calledRetrieval := true, calledGenerate := false }
      else generateModelStep env now cache cacheKey didRead actualSources fullPrompt
    | .error _ =>
      -- token counting unavailable: log and proceed (non-fatal)
      generateModelStep env now cache cacheKey didRead actualSources fullPrompt

/-- `generate_response(query, chat_history, case_data)`.  The cache is
consulted only when `chat_history` is empty or equals the literal
`"No previous conversation"`; a non-empty cached answer is returned
immediately with empty sources.  (The `tenacity` retry decorator never
re-fires because the function body catches every exception, and the
response-processing `try/except` is unreachable in this total model; both
are noted rather than modelled.) -/
def generateResponse (env : GenEnv) (now : Nat) (cache : Cache)
    (query chatHistory caseData : String) : GenOutcome :=
  if chatHistory == "" || chatHistory == "No previous conversation" then
    let cacheKey := _generate_cache_key query caseData
    let lookup := _get_cached_response now cache cacheKey
    match lookup.1 with
    | some cached =>
      if cached == "" then
        -- `if cached_response:` — an empty cached string is falsy, fall through
        generateAfterCache env now lookup.2 (some cacheKey) true query chatHistory caseData
      else
        { answer := cached, sources := [], status := "success",
          cache := lookup.2, usedCacheKey := some cacheKey, readCache := true,
          wroteCache := false, calledRetrieval := false, calledGenerate := false }
    | none =>
      generateAfterCache env now lookup.2 (some cacheKey) true query chatHistory caseData
  else
    generateAfterCache env now cache none false query chatHistory caseData

/-! ## Lemmas about the reranker -/

/-- Number of selected chunks whose source is `s`. -/
def countBySource (l : List Hit) (s : String) : Nat :=
  l.countP (fun h => sourceOf h == s)

lemma length_insertByDistanceDesc (x : Hit) (l : List Hit) :
    (insertByDistanceDesc x l).length = l.length + 1 := by
  induction l with
  | nil => rfl
  | cons y ys ih =>
    rw [insertByDistanceDesc]
    split
    · simp [ih]
    · simp

lemma length_sortByDistanceDesc (l : List Hit) :
    (sortByDistanceDesc l).length = l.length := by
  induction l with
  | nil => rfl
  | cons x xs ih => rw [sortByDistanceDesc, length_insertByDistanceDesc, ih]; rfl

lemma mem_insertByDistanceDesc (x y : Hit) :
    ∀ l : List Hit, y ∈ insertByDistanceDesc x l → y = x ∨ y ∈ l := by
  intro l
  induction l with
  | nil => intro h; simpa [insertByDistanceDesc] using h
  | cons z zs ih =>
    intro h
    rw [insertByDistanceDesc] at h
    split at h
    · rw [List.mem_cons] at h
      rcases h with h | h
      · exact Or.inr (by simp [h])
      · rcases ih h with h | h
        · exact Or.inl h
        · exact Or.inr (by simp [h])
    · simpa [or_assoc] using h

lemma mem_sortByDistanceDesc (y : Hit) :
    ∀ l : List Hit, y ∈ sortByDistanceDesc l → y ∈ l := by
  intro l
  induction l with
  | nil => intro h; simp [sortByDistanceDesc] at h
  | cons x xs ih =>
    intro h
    rw [sortByDistanceDesc] at h
    rcases mem_insertByDistanceDesc x y _ h with h | h
    · simp [h]
    · simp [ih h]

lemma findBestAux_spec (lam : ℚ) (cap : Nat) (counts : String → Nat) :
    ∀ (l : List Hit) (j : Nat) (b : Option (ℚ × Nat × Hit)) (q : ℚ) (i : Nat) (c : Hit),
      findBestAux lam cap counts l j b = some (q, i, c) →
      b = some (q, i, c) ∨ (j ≤ i ∧ l[i - j]? = some c ∧ counts (sourceOf c) < cap) := by
  intro l
  induction l with
  | nil =>
    intro j b q i c h
    exact Or.inl h
  | cons hd tl ih =>
    intro j b q i c h
    rw [findBestAux] at h
    by_cases hcap : cap ≤ counts (sourceOf hd)
    · rw [if_pos hcap] at h
      rcases ih (j + 1) b q i c h with hb | ⟨hji, hget, helig⟩
      · exact Or.inl hb
      · refine Or.inr ⟨le_trans (Nat.le_succ j) hji, ?_, helig⟩
        have hij : i - j = (i - (j + 1)) + 1 := by omega
        rw [hij, List.getElem?_cons_succ]
        exact hget
    · rw [if_neg hcap] at h
      have shift : j + 1 ≤ i → tl[i - (j + 1)]? = some c →
          (hd :: tl)[i - j]? = some c := by
        intro hji hget
        have hij : i - j = (i - (j + 1)) + 1 := by omega
        rw [hij, List.getElem?_cons_succ]
        exact hget
      cases b with
      | none =>
        dsimp only at h
        rcases ih (j + 1) _ q i c h with hb | ⟨hji, hget, helig⟩
        · simp only [Option.some.injEq, Prod.mk.injEq] at hb
          obtain ⟨-, hi, hc⟩ := hb
          subst hi; subst hc
          exact Or.inr ⟨le_refl j, by simp, lt_of_not_le hcap⟩
        · exact Or.inr ⟨le_trans (Nat.le_succ j) hji, shift hji hget, helig⟩
      | some best0 =>
        obtain ⟨bs, bi, bc⟩ := best0
        dsimp only at h
        by_cases hlt : bs < mmrScore lam counts hd
        · rw [if_pos hlt] at h
          rcases ih (j + 1) _ q i c h with hb | ⟨hji, hget, helig⟩
          · simp only [Option.some.injEq, Prod.mk.injEq] at hb
            obtain ⟨-, hi, hc⟩ := hb
            subst hi; subst hc
            exact Or.inr ⟨le_refl j, by simp, lt_of_not_le hcap⟩
          · exact Or.inr ⟨le_trans (Nat.le_succ j) hji, shift hji hget, helig⟩
        · rw [if_neg hlt] at h
          rcases ih (j + 1) _ q i c h with hb | ⟨hji, hget, helig⟩
          · exact Or.inl hb
          · exact Or.inr ⟨le_trans (Nat.le_succ j) hji, shift hji hget, helig⟩

lemma findBest_spec {lam : ℚ} {cap : Nat} {counts : String → Nat}
    {remaining : List Hit} {q : ℚ} {i : Nat} {c : Hit}
    (h : findBest lam cap counts remaining = some (q, i, c)) :
    remaining[i]? = some c ∧ counts (sourceOf c) < cap := by
  rcases findBestAux_spec lam cap counts remaining 0 none q i c h with hb | ⟨-, hget, helig⟩
  · cases hb
  · simpa using ⟨hget, helig⟩

lemma mmrLoop_length_le (lam : ℚ) (cap k : Nat) :
    ∀ (fuel : Nat) (remaining : List Hit) (counts : String → Nat) (selected : List Hit),
      selected.length ≤ k →
      (mmrLoop lam cap k fuel remaining counts selected).1.length ≤ k := by
  intro fuel
  induction fuel with
  | zero => intro remaining counts selected h; simpa [mmrLoop] using h
  | succ n ih =>
    intro remaining counts selected h
    rw [mmrLoop]
    split
    · split
      · next q idx c heq =>
        apply ih
        simp only [List.length_append, List.length_cons, List.length_nil]
        next hcond => omega
      · simpa using h
    · simpa using h

lemma mmrLoop_length_le_total (lam : ℚ) (cap k : Nat) :
    ∀ (fuel : Nat) (remaining : List Hit) (counts : String → Nat) (selected : List Hit),
      (mmrLoop lam cap k fuel remaining counts selected).1.length
        ≤ selected.length + remaining.length := by
  intro fuel
  induction fuel with
  | zero => intro remaining counts selected; simp [mmrLoop]
  | succ n ih =>
    intro remaining counts selected
    rw [mmrLoop]
    split
    · split
      · next q idx c heq =>
        have hidx : idx < remaining.length := by
          have := (findBest_spec heq).1
          have h2 := List.getElem?_eq_some.mp this
          exact h2.1
        calc (mmrLoop lam cap k n (remaining.eraseIdx idx) _ (selected ++ [c])).1.length
            ≤ (selected ++ [c]).length + (remaining.eraseIdx idx).length := ih _ _ _
          _ ≤ selected.length + remaining.length := by
              simp [List.length_eraseIdx, hidx]
              omega
      · simp
    · simp

lemma mmrLoop_mem (lam : ℚ) (cap k : Nat) :
    ∀ (fuel : Nat) (remaining : List Hit) (counts : String → Nat) (selected : List Hit)
      (x : Hit), x ∈ (mmrLoop lam cap k fuel remaining counts selected).1 →
      x ∈ selected ∨ x ∈ remaining := by
  intro fuel
  induction fuel with
  | zero => intro remaining counts selected x h; simp [mmrLoop] at h; exact Or.inl h
  | succ n ih =>
    intro remaining counts selected x h
    rw [mmrLoop] at h
    split at h
    · split at h
      · next q idx c heq =>
        rcases ih _ _ _ _ h with hsel | hrem
        · rw [List.mem_append] at hsel
          rcases hsel with hsel | hsel
          · exact Or.inl hsel
          · simp only [List.mem_singleton] at hsel
            subst hsel
            exact Or.inr (List.getElem?_mem (findBest_spec heq).1)
        · exact Or.inr (List.mem_of_mem_eraseIdx hrem)
      · exact Or.inl h
    · exact Or.inl h

lemma countBySource_append (l₁ l₂ : List Hit) (s : String) :
    countBySource (l₁ ++ l₂) s = countBySource l₁ s + countBySource l₂ s :=
  List.countP_append _ l₁ l₂

lemma mmrLoop_cap (lam : ℚ) (cap k : Nat) :
    ∀ (fuel : Nat) (remaining : List Hit) (counts : String → Nat) (selected : List Hit),
      (∀ s, countBySource selected s ≤ counts s) →
      (∀ s, countBySource selected s ≤ cap) →
      ∀ s, countBySource (mmrLoop lam cap k fuel remaining counts selected).1 s ≤ cap := by
  intro fuel
  induction fuel with
  | zero => intro remaining counts selected hsel hcap s; simpa [mmrLoop] using hcap s
  | succ n ih =>
    intro remaining counts selected hsel hcap s
    rw [mmrLoop]
    split
    · split
      · next q idx c heq =>
        have helig : counts (sourceOf c) < cap := (findBest_spec heq).2
        apply ih
        · intro t
          rw [countBySource_append]
          by_cases ht : t = sourceOf c
          · subst ht
            have h1 : countBySource [c] (sourceOf c) = 1 := by
              simp [countBySource, List.countP_cons]
            rw [h1]
            have h2 := hsel (sourceOf c)
            simp
            omega
          · have h0 : countBySource [c] t = 0 := by
              simp [countBySource, List.countP_cons]
              intro hcontra
              exact ht hcontra.symm
            rw [h0]
            have h2 := hsel t
            simp [ht]
            omega
        · intro t
          rw [countBySource_append]
          by_cases ht : t = sourceOf c
          · subst ht
            have h1 : countBySource [c] (sourceOf c) = 1 := by
              simp [countBySource, List.countP_cons]
            rw [h1]
            have := hsel (sourceOf c)
            omega
          · have h0 : countBySource [c] t = 0 := by
              simp [countBySource, List.countP_cons]
              intro hcontra
              exact ht hcontra.symm
            rw [h0]
            have := hcap t
            omega
      · simpa using hcap s
    · simpa using hcap s

lemma sortByDistanceDesc_map_ne_nil {hits : List Hit} {k : Nat} (hlen : k < hits.length) :
    sortByDistanceDesc (hits.map setScore) ≠ [] := by
  intro h
  have hl := length_sortByDistanceDesc (hits.map setScore)
  rw [h] at hl
  simp at hl
  omega

lemma applyMmr_eq_rerank (hits : List Hit) (k : Nat) (lam : ℚ) (first : Hit) (rest : List Hit)
    (hne : ¬ (hits = [] ∨ hits.length ≤ k))
    (hsort : sortByDistanceDesc (hits.map setScore) = first :: rest) :
    applyMmrDiversityReranking hits k lam =
      (hits.map setScore,
       (mmrLoop lam (max 2 (k / 4)) k rest.length rest
         (fun s => if s = sourceOf first then 1 else 0) [first]).1) := by
  unfold applyMmrDiversityReranking
  rw [if_neg hne]
  dsimp only
  rw [hsort]

lemma applyMmr_fst_eq (hits : List Hit) (k : Nat) (lam : ℚ)
    (hne : ¬ (hits = [] ∨ hits.length ≤ k)) :
    (applyMmrDiversityReranking hits k lam).1 = hits.map setScore := by
  unfold applyMmrDiversityReranking
  rw [if_neg hne]
  dsimp only
  cases sortByDistanceDesc (hits.map setScore) <;> rfl

/-- C5 (amended): whenever reranking actually runs (`k ≥ 1` and strictly more
hits than `k`), the returned selection has at most `k` items and no single
source contributes more than `max(2, k / 4)` of them.  (As literally stated
the claim also covers the `len(hits) ≤ k` shortcut, where the cap does not
hold — see the counterexample.) -/
theorem C5_diversity_cap (hits : List Hit) (k : Nat) (lam : ℚ)
    (hk : 1 ≤ k) (hlen : k < hits.length) :
    ((applyMmrDiversityReranking hits k lam).2.length ≤ k) ∧
    (∀ s, countBySource (applyMmrDiversityReranking hits k lam).2 s ≤ max 2 (k / 4)) := by
  have hne : ¬ (hits = [] ∨ hits.length ≤ k) := by
    push_neg
    refine ⟨?_, by omega⟩
    intro h
    subst h
    simp at hlen
  cases hsort : sortByDistanceDesc (hits.map setScore) with
  | nil => exact absurd hsort (sortByDistanceDesc_map_ne_nil hlen)
  | cons first rest =>
    rw [applyMmr_eq_rerank hits k lam first rest hne hsort]
    constructor
    · exact mmrLoop_length_le lam _ k rest.length rest _ [first] (by simpa using hk)
    · intro s
      apply mmrLoop_cap
      · intro t
        by_cases ht : t = sourceOf first
        · subst ht
          simp [countBySource, List.countP_cons]
        · have h0 : countBySource [first] t = 0 := by
            simp [countBySource, List.countP_cons]
            intro hcontra
            exact ht hcontra.symm
          rw [h0]
          simp [ht]
      · intro t
        have h1 : countBySource [first] t ≤ 1 := by
          simp [countBySource, List.countP_cons]
          split <;> omega
        omega

/-- C6 (amended): for every hit list and every `k ≥ 1`, the reranker returns
at most `min(k, len(hits))` items, and every returned item is one of the
caller's hits — either untouched (shortcut path) or with its in-place `score`
write applied (rerank path).  (For `k = 0` with a nonempty hit list the seed
hit is still returned, so the bound fails — see the counterexample.) -/
theorem C6_monotonic_safety (hits : List Hit) (k : Nat) (lam : ℚ) (hk : 1 ≤ k) :
    ((applyMmrDiversityReranking hits k lam).2.length ≤ min k hits.length) ∧
    (∀ r ∈ (applyMmrDiversityReranking hits k lam).2,
      ∃ h ∈ hits, r = h ∨ r = setScore h) := by
  by_cases hcond : hits = [] ∨ hits.length ≤ k
  · unfold applyMmrDiversityReranking
    rw [if_pos hcond]
    constructor
    · rcases hcond with h | h
      · subst h; simp
      · simp; omega
    · intro r hr
      exact ⟨r, hr, Or.inl rfl⟩
  · have hlen : k < hits.length := by
      push_neg at hcond
      omega
    cases hsort : sortByDistanceDesc (hits.map setScore) with
    | nil => exact absurd hsort (sortByDistanceDesc_map_ne_nil hlen)
    | cons first rest =>
      rw [applyMmr_eq_rerank hits k lam first rest hcond hsort]
      constructor
      · apply le_min
        · exact mmrLoop_length_le lam _ k rest.length rest _ [first] (by simpa using hk)
        · have htot := mmrLoop_length_le_total lam (max 2 (k / 4)) k rest.length rest
            (fun s => if s = sourceOf first then 1 else 0) [first]
          have hlength := length_sortByDistanceDesc (hits.map setScore)
          rw [hsort] at hlength
          simp only [List.length_cons, List.length_map] at hlength
          simp only [List.length_singleton] at htot
          dsimp only
          omega
      · intro r hr
        have hmem : r ∈ first :: rest := by
          rcases mmrLoop_mem lam _ k rest.length rest _ [first] r hr with h | h
          · simp at h; simp [h]
          · simp [h]
        have hscored : r ∈ hits.map setScore := by
          apply mem_sortByDistanceDesc
          rw [hsort]
          exact hmem
        rw [List.mem_map] at hscored
        obtain ⟨h, hh, hr'⟩ := hscored
        exact ⟨h, hh, Or.inr hr'.symm⟩

/-- C9: on the rerank path (`len(hits) > k`) every one of the caller's hit
records has its `score` key written (set to the hit's reported distance,
default `0.0`) before selection, so the post-call state of the input list is
`hits.map setScore`; only the `len(hits) ≤ k` shortcut leaves the inputs
unmodified, and on the rerank path inputs whose `score` key was absent are
definitely changed. -/
theorem C9_score_write_frame_effect (hits : List Hit) (k : Nat) (lam : ℚ) :
    (k < hits.length →
      (applyMmrDiversityReranking hits k lam).1 = hits.map setScore ∧
      (∀ h ∈ (applyMmrDiversityReranking hits k lam).1,
        h.score = some (h.distance.getD 0)) ∧
      ((∀ h ∈ hits, h.score = none) →
        (applyMmrDiversityReranking hits k lam).1 ≠ hits)) ∧
    (hits.length ≤ k → (applyMmrDiversityReranking hits k lam).1 = hits) := by
  constructor
  · intro hlen
    have hne : ¬ (hits = [] ∨ hits.length ≤ k) := by
      push_neg
      refine ⟨?_, by omega⟩
      intro h
      subst h
      simp at hlen
    have hfst := applyMmr_fst_eq hits k lam hne
    refine ⟨hfst, ?_, ?_⟩
    · intro h hh
      rw [hfst] at hh
      rw [List.mem_map] at hh
      obtain ⟨h0, -, hh0⟩ := hh
      subst hh0
      simp [setScore]
    · intro hnone
      rw [hfst]
      intro hcontra
      obtain ⟨h0, hmem⟩ : ∃ h0, h0 ∈ hits := by
        cases hits with
        | nil => simp at hlen
        | cons a l => exact ⟨a, by simp⟩
      have h1 : setScore h0 ∈ hits.map setScore := List.mem_map_of_mem setScore hmem
      rw [hcontra] at h1
      have h2 := hnone _ h1
      simp [setScore] at h2
  · intro hlen
    unfold applyMmrDiversityReranking
    rw [if_pos (Or.inr hlen)]

/-! ## Lemmas about the response cache -/

lemma find?_map_update (key v : String) (t : Nat) :
    ∀ cache : Cache, cache.any (fun e => e.1 == key) = true →
      (cache.map (fun e => if e.1 == key then (key, v, t) else e)).find?
          (fun e => e.1 == key) = some (key, v, t) := by
  intro cache
  induction cache with
  | nil => intro h; simp at h
  | cons e es ih =>
    intro h
    rw [List.map_cons]
    by_cases he : (e.1 == key) = true
    · rw [if_pos he]
      exact List.find?_cons_of_pos _ (by simp)
    · rw [if_neg he]
      rw [List.find?_cons_of_neg _ (by simpa using he)]
      apply ih
      rw [List.any_cons] at h
      simpa [he] using h

lemma find?_append_of_none {α : Type} (p : α → Bool) (l₁ l₂ : List α)
    (h : l₁.find? p = none) : (l₁ ++ l₂).find? p = l₂.find? p := by
  induction l₁ with
  | nil => simp
  | cons x xs ih =>
    rw [List.find?_eq_none] at h
    have hx : ¬ p x = true := h x (by simp)
    rw [List.cons_append, List.find?_cons_of_neg _ hx]
    apply ih
    rw [List.find?_eq_none]
    intro y hy
    exact h y (by simp [hy])

lemma find?_dictInsert (cache : Cache) (key v : String) (t : Nat) :
    (dictInsert cache key v t).find? (fun e => e.1 == key) = some (key, v, t) := by
  unfold dictInsert
  by_cases h : cache.any (fun e => e.1 == key) = true
  · rw [if_pos h]
    exact find?_map_update key v t cache h
  · rw [if_neg h]
    have hnone : cache.find? (fun e => e.1 == key) = none := by
      rw [List.find?_eq_none]
      intro x hx hpx
      exact h (List.any_eq_true.mpr ⟨x, hx, hpx⟩)
    rw [find?_append_of_none _ _ _ hnone]
    exact List.find?_cons_of_pos _ (by simp)

/-- C8: a cache `get` for `(query, context)` performed right after a
successful `put` of `answer` — within the TTL and with the cache not pushed
over capacity by the insert — returns exactly `answer`. -/
theorem C8_cache_idempotence (cache : Cache) (query caseData answer : String) (t tGet : Nat)
    (hcap : (dictInsert cache (_generate_cache_key query caseData) answer t).length
      ≤ MAX_CACHE_SIZE)
    (httl : tGet - t < CACHE_TTL_MINUTES) :
    (_get_cached_response tGet
        (_cache_response t cache (_generate_cache_key query caseData) answer)
        (_generate_cache_key query caseData)).1 = some answer := by
  unfold _cache_response
  rw [if_neg (by omega)]
  unfold _get_cached_response
  rw [find?_dictInsert]
  dsimp only
  rw [if_pos httl]

/-- Witness for C8 at a concrete input: empty cache, `put` then `get` at the
same instant. -/
theorem C8_cache_idempotence_witness :
    ((dictInsert [] (_generate_cache_key "What is bail?" "ctx") "Answer text." 0).length
        ≤ MAX_CACHE_SIZE ∧ 0 - 0 < CACHE_TTL_MINUTES) ∧
    (_get_cached_response 0
        (_cache_response 0 [] (_generate_cache_key "What is bail?" "ctx") "Answer text.")
        (_generate_cache_key "What is bail?" "ctx")).1 = some "Answer text." :=
  ⟨⟨by decide, by decide⟩,
    C8_cache_idempotence [] "What is bail?" "ctx" "Answer text." 0 0 (by decide) (by decide)⟩

/-! ## Lemmas about the generation orchestrator -/

lemma generateModelStep_calledGenerate (env : GenEnv) (now : Nat) (cache : Cache)
    (ck : Option String) (dr : Bool) (srcs : List String) (prompt : String) :
    (generateModelStep env now cache ck dr srcs prompt).calledGenerate = true := by
  unfold generateModelStep
  split
  · rfl
  · rfl
  · split
    · rfl
    · rfl

lemma generateModelStep_none (env : GenEnv) (now : Nat) (cache : Cache)
    (dr : Bool) (srcs : List String) (prompt : String) :
    (generateModelStep env now cache none dr srcs prompt).usedCacheKey = none ∧
    (generateModelStep env now cache none dr srcs prompt).readCache = dr ∧
    (generateModelStep env now cache none dr srcs prompt).wroteCache = false ∧
    (generateModelStep env now cache none dr srcs prompt).cache = cache ∧
    (generateModelStep env now cache none dr srcs prompt).calledRetrieval = true := by
  unfold generateModelStep
  split
  · exact ⟨rfl, rfl, rfl, rfl, rfl⟩
  · exact ⟨rfl, rfl, rfl, rfl, rfl⟩
  · split
    · exact ⟨rfl, rfl, rfl, rfl, rfl⟩
    · exact ⟨rfl, rfl, rfl, rfl, rfl⟩

lemma generateAfterCache_retrieval_error (env : GenEnv) (now : Nat) (cache : Cache)
    (ck : Option String) (dr : Bool) (q ch cd e : String)
    (hret : env.retrieval = Except.error e) :
    generateAfterCache env now cache ck dr q ch cd =
      { answer := "An unexpected error occurred: " ++ e, sources := [],
        status := "error", cache := cache, usedCacheKey := ck,
        readCache := dr, wroteCache := false,
        calledRetrieval := true, calledGenerate := false } := by
  unfold generateAfterCache
  rw [hret]

lemma generateAfterCache_token_overflow (env : GenEnv) (now : Nat) (cache : Cache)
    (ck : Option String) (dr : Bool) (q ch cd : String)
    (ctx : List EnrichedChunk) (srcs : List String) (n : Nat)
    (hret : env.retrieval = Except.ok (ctx, srcs))
    (htok : env.tokenCount (assembledPrompt q ch cd ctx srcs) = Except.ok n)
    (hn : PROMPT_TOKEN_LIMIT < n) :
    generateAfterCache env now cache ck dr q ch cd =
      { answer := "Error: Input prompt exceeds token limit ("
          ++ toString n ++ "/" ++ toString PROMPT_TOKEN_LIMIT ++ ").",
        sources := srcs, status := "error", cache := cache, usedCacheKey := ck,
        readCache := dr, wroteCache := false,
        calledRetrieval := true, calledGenerate := false } := by
  unfold generateAfterCache
  rw [hret]
  dsimp only
  rw [htok]
  dsimp only
  rw [if_pos hn]

lemma generateAfterCache_token_ok_small (env : GenEnv) (now : Nat) (cache : Cache)
    (ck : Option String) (dr : Bool) (q ch cd : String)
    (ctx : List EnrichedChunk) (srcs : List String) (n : Nat)
    (hret : env.retrieval = Except.ok (ctx, srcs))
    (htok : env.tokenCount (assembledPrompt q ch cd ctx srcs) = Except.ok n)
    (hn : ¬ PROMPT_TOKEN_LIMIT < n) :
    generateAfterCache env now cache ck dr q ch cd =
      generateModelStep env now cache ck dr srcs (assembledPrompt q ch cd ctx srcs) := by
  unfold generateAfterCache
  rw [hret]
  dsimp only
  rw [htok]
  dsimp only
  rw [if_neg hn]

lemma generateAfterCache_token_fail (env : GenEnv) (now : Nat) (cache : Cache)
    (ck : Option String) (dr : Bool) (q ch cd : String)
    (ctx : List EnrichedChunk) (srcs : List String) (m : String)
    (hret : env.retrieval = Except.ok (ctx, srcs))
    (htok : env.tokenCount (assembledPrompt q ch cd ctx srcs) = Except.error m) :
    generateAfterCache env now cache ck dr q ch cd =
      generateModelStep env now cache ck dr srcs (assembledPrompt q ch cd ctx srcs) := by
  unfold generateAfterCache
  rw [hret]
  dsimp only
  rw [htok]

lemma generateResponse_reaches_afterCache (env : GenEnv) (now : Nat) (cache : Cache)
    (q ch cd : String)
    (hmiss : ((_get_cached_response now cache (_generate_cache_key q cd)).1.getD "") = "") :
    ∃ (cache1 : Cache) (ck : Option String) (dr : Bool),
      generateResponse env now cache q ch cd = generateAfterCache env now cache1 ck dr q ch cd := by
  unfold generateResponse
  by_cases hcond : (ch == "" || ch == "No previous conversation") = true
  · rw [if_pos hcond]
    dsimp only
    cases hlk : (_get_cached_response now cache (_generate_cache_key q cd)).1 with
    | some cached =>
      have hc : cached = "" := by
        rw [hlk] at hmiss
        simpa using hmiss
      subst hc
      exact ⟨_, _, _, rfl⟩
    | none =>
      exact ⟨_, _, _, rfl⟩
  · rw [if_neg hcond]
    exact ⟨_, _, _, rfl⟩

lemma generateModelStep_success (env : GenEnv) (now : Nat) (cache : Cache)
    (ck : Option String) (dr : Bool) (srcs : List String) (prompt : String)
    (cand : Candidate) (p : String) (ps : List String)
    (hgen : env.generation prompt = Except.ok (some cand)) (hp : cand.parts = p :: ps) :
    (generateModelStep env now cache ck dr srcs prompt).status = "success" ∧
    (generateModelStep env now cache ck dr srcs prompt).answer =
      (if cand.finish_reason == "MAX_TOKENS" then p.trim ++ TRUNCATION_WARNING
       else if cand.finish_reason == "SAFETY" then p.trim ++ SAFETY_WARNING
       else p.trim) := by
  unfold generateModelStep
  rw [hgen]
  dsimp only
  rw [hp]
  exact ⟨rfl, rfl⟩

/-- C1 (amended): any exception escaping the body of `generate_response` is
caught by the top-level handler and converted into a returned `status="error"`
triple — but the answer text is the fixed prefix
`"An unexpected error occurred: "` followed by the exception's own message
verbatim, not a sanitized message.  (The hypothesis `hmiss` says the call is
not served from the cache, which would bypass the failing step.) -/
theorem C1_toplevel_exception_to_error_status (env : GenEnv) (now : Nat) (cache : Cache)
    (q ch cd e : String)
    (hmiss : ((_get_cached_response now cache (_generate_cache_key q cd)).1.getD "") = "")
    (hret : env.retrieval = Except.error e) :
    (generateResponse env now cache q ch cd).status = "error" ∧
    (generateResponse env now cache q ch cd).answer = "An unexpected error occurred: " ++ e := by
  obtain ⟨cache1, ck, dr, heq⟩ := generateResponse_reaches_afterCache env now cache q ch cd hmiss
  rw [heq, generateAfterCache_retrieval_error env now cache1 ck dr q ch cd e hret]
  exact ⟨rfl, rfl⟩

/-- Witness for C1 at a concrete input: empty cache, retrieval raising
`RuntimeError("Vector store not initialized.")`. -/
theorem C1_toplevel_exception_witness :
    (((_get_cached_response 0 [] (_generate_cache_key "q" "cd")).1.getD "") = "" ∧
      (GenEnv.mk (Except.error "Vector store not initialized.")
        (fun _ => Except.error "unused") (fun _ => Except.ok none)).retrieval
        = Except.error "Vector store not initialized.") ∧
    (generateResponse
        (GenEnv.mk (Except.error "Vector store not initialized.")
          (fun _ => Except.error "unused") (fun _ => Except.ok none))
        0 [] "q" "" "cd").status = "error" ∧
    (generateResponse
        (GenEnv.mk (Except.error "Vector store not initialized.")
          (fun _ => Except.error "unused") (fun _ => Except.ok none))
        0 [] "q" "" "cd").answer
      = "An unexpected error occurred: " ++ "Vector store not initialized." :=
  ⟨⟨by decide, rfl⟩,
    C1_toplevel_exception_to_error_status _ 0 [] "q" "" "cd" "Vector store not initialized."
      (by decide) rfl⟩

/-- C3 (amended): a call whose `chat_history` is non-empty **and** different
from the sentinel `"No previous conversation"` never touches the cache: no
cache key is computed, no lookup happens, nothing is stored, the cache state
is unchanged, retrieval is always invoked, and the call either invokes
content generation or fails with an error on the way there. -/
theorem C3_history_bypasses_cache (env : GenEnv) (now : Nat) (cache : Cache)
    (q ch cd : String) (h1 : ch ≠ "") (h2 : ch ≠ "No previous conversation") :
    (generateResponse env now cache q ch cd).usedCacheKey = none ∧
    (generateResponse env now cache q ch cd).readCache = false ∧
    (generateResponse env now cache q ch cd).wroteCache = false ∧
    (generateResponse env now cache q ch cd).cache = cache ∧
    (generateResponse env now cache q ch cd).calledRetrieval = true ∧
    ((generateResponse env now cache q ch cd).calledGenerate = true ∨
      (generateResponse env now cache q ch cd).status = "error") := by
  have hcond : (ch == "" || ch == "No previous conversation") = false := by
    simp [h1, h2]
  have heq : generateResponse env now cache q ch cd
      = generateAfterCache env now cache none false q ch cd := by
    unfold generateResponse
    rw [hcond]
    rfl
  rw [heq]
  unfold generateAfterCache
  cases hret : env.retrieval with
  | error e => exact ⟨rfl, rfl, rfl, rfl, rfl, Or.inr rfl⟩
  | ok pair =>
    obtain ⟨ctx, srcs⟩ := pair
    dsimp only
    cases htok : env.tokenCount (assembledPrompt q ch cd ctx srcs) with
    | ok n =>
      dsimp only
      by_cases hn : PROMPT_TOKEN_LIMIT < n
      · rw [if_pos hn]
        exact ⟨rfl, rfl, rfl, rfl, rfl, Or.inr rfl⟩
      · rw [if_neg hn]
        have hms := generateModelStep_none env now cache false srcs
          (assembledPrompt q ch cd ctx srcs)
        exact ⟨hms.1, hms.2.1, hms.2.2.1, hms.2.2.2.1, hms.2.2.2.2,
          Or.inl (generateModelStep_calledGenerate env now cache none false srcs _)⟩
    | error m =>
      dsimp only
      have hms := generateModelStep_none env now cache false srcs
        (assembledPrompt q ch cd ctx srcs)
      exact ⟨hms.1, hms.2.1, hms.2.2.1, hms.2.2.2.1, hms.2.2.2.2,
        Or.inl (generateModelStep_calledGenerate env now cache none false srcs _)⟩

/-- Witness for C3 at a concrete input: a follow-up-style history string. -/
theorem C3_history_bypasses_cache_witness :
    (("Earlier we discussed bail." ≠ "" ∧
      "Earlier we discussed bail." ≠ "No previous conversation")) ∧
    (generateResponse (GenEnv.mk (Except.ok ([], []))
        (fun _ => Except.error "count unavailable") (fun _ => Except.ok none))
        0 [] "q" "Earlier we discussed bail." "cd").usedCacheKey = none ∧
    (generateResponse (GenEnv.mk (Except.ok ([], []))
        (fun _ => Except.error "count unavailable") (fun _ => Except.ok none))
        0 [] "q" "Earlier we discussed bail." "cd").readCache = false ∧
    (generateResponse (GenEnv.mk (Except.ok ([], []))
        (fun _ => Except.error "count unavailable") (fun _ => Except.ok none))
        0 [] "q" "Earlier we discussed bail." "cd").cache = [] :=
  ⟨⟨by decide, by decide⟩,
    (C3_history_bypasses_cache _ 0 [] "q" "Earlier we discussed bail." "cd"
      (by decide) (by decide)).1,
    (C3_history_bypasses_cache _ 0 [] "q" "Earlier we discussed bail." "cd"
      (by decide) (by decide)).2.1,
    (C3_history_bypasses_cache _ 0 [] "q" "Earlier we discussed bail." "cd"
      (by decide) (by decide)).2.2.2.1⟩

/-- C4 (amended): when the model's first candidate has text content, a
`SAFETY` finish reason yields `status="success"` with the kept text plus a
visible content-filtering warning appended; a `RECITATION` finish reason also
yields `status="success"` with the text kept, but **no** warning is appended
(the source's `RECITATION` branch only logs). -/
theorem C4_safety_warned_recitation_not (env : GenEnv) (now : Nat) (cache : Cache)
    (q ch cd : String) (cand : Candidate) (p : String) (ps : List String)
    (hmiss : ((_get_cached_response now cache (_generate_cache_key q cd)).1.getD "") = "")
    (hret : ∃ ctx srcs, env.retrieval = Except.ok (ctx, srcs))
    (htok : ∀ s n, env.tokenCount s = Except.ok n → n ≤ PROMPT_TOKEN_LIMIT)
    (hgen : ∀ s, env.generation s = Except.ok (some cand))
    (hp : cand.parts = p :: ps) :
    (cand.finish_reason = "SAFETY" →
      (generateResponse env now cache q ch cd).status = "success" ∧
      (generateResponse env now cache q ch cd).answer = p.trim ++ SAFETY_WARNING) ∧
    (cand.finish_reason = "RECITATION" →
      (generateResponse env now cache q ch cd).status = "success" ∧
      (generateResponse env now cache q ch cd).answer = p.trim) := by
  obtain ⟨ctx, srcs, hret⟩ := hret
  obtain ⟨cache1, ck, dr, heq⟩ := generateResponse_reaches_afterCache env now cache q ch cd hmiss
  have hstep : generateResponse env now cache q ch cd
      = generateModelStep env now cache1 ck dr srcs (assembledPrompt q ch cd ctx srcs) := by
    rw [heq]
    cases htokc : env.tokenCount (assembledPrompt q ch cd ctx srcs) with
    | ok n =>
      exact generateAfterCache_token_ok_small env now cache1 ck dr q ch cd ctx srcs n hret htokc
        (by have := htok _ n htokc; omega)
    | error m =>
      exact generateAfterCache_token_fail env now cache1 ck dr q ch cd ctx srcs m hret htokc
  obtain ⟨hs, ha⟩ := generateModelStep_success env now cache1 ck dr srcs
    (assembledPrompt q ch cd ctx srcs) cand p ps (hgen _) hp
  constructor
  · intro hfin
    refine ⟨by rw [hstep]; exact hs, ?_⟩
    rw [hstep, ha, hfin]
    simp
  · intro hfin
    refine ⟨by rw [hstep]; exact hs, ?_⟩
    rw [hstep, ha, hfin]
    simp

/-- C7: with the call not served from cache and retrieval succeeding, a
successful token count strictly above `PROMPT_TOKEN_LIMIT = 16000` makes
`generate_response` return `status="error"` with the descriptive
token-limit message and never invoke the generative model; a failing token
count is non-fatal and generation is still invoked. -/
theorem C7_token_budget_check (env : GenEnv) (now : Nat) (cache : Cache)
    (q ch cd : String) (ctx : List EnrichedChunk) (srcs : List String)
    (hmiss : ((_get_cached_response now cache (_generate_cache_key q cd)).1.getD "") = "")
    (hret : env.retrieval = Except.ok (ctx, srcs)) :
    (∀ n, env.tokenCount (assembledPrompt q ch cd ctx srcs) = Except.ok n →
      PROMPT_TOKEN_LIMIT < n →
      (generateResponse env now cache q ch cd).status = "error" ∧
      (generateResponse env now cache q ch cd).calledGenerate = false ∧
      (generateResponse env now cache q ch cd).answer =
        "Error: Input prompt exceeds token limit (" ++ toString n ++ "/"
          ++ toString PROMPT_TOKEN_LIMIT ++ ").") ∧
    (∀ m, env.tokenCount (assembledPrompt q ch cd ctx srcs) = Except.error m →
      (generateResponse env now cache q ch cd).calledGenerate = true) := by
  obtain ⟨cache1, ck, dr, heq⟩ := generateResponse_reaches_afterCache env now cache q ch cd hmiss
  constructor
  · intro n htok hn
    rw [heq, generateAfterCache_token_overflow env now cache1 ck dr q ch cd ctx srcs n hret htok hn]
    exact ⟨rfl, rfl, rfl⟩
  · intro m htok
    rw [heq, generateAfterCache_token_fail env now cache1 ck dr q ch cd ctx srcs m hret htok]
    exact generateModelStep_calledGenerate env now cache1 ck dr srcs _

/-! ## Concrete fixtures for counterexamples and witnesses -/

/-- C2 failing input: five hits with distances `10, 9, 8, 1, 0` from sources
`A, B, B, C, D` (reranked with `k = 3`, `lambda = 0.5`). -/
def bugHitA : Hit := ⟨some 10, some ⟨some "a1", some "A", none⟩, none⟩

def bugHitB1 : Hit := ⟨some 9, some ⟨some "b1", some "B", none⟩, none⟩

def bugHitB2 : Hit := ⟨some 8, some ⟨some "b2", some "B", none⟩, none⟩

def bugHitC : Hit := ⟨some 1, some ⟨some "c1", some "C", none⟩, none⟩

def bugHitD : Hit := ⟨some 0, some ⟨some "d1", some "D", none⟩, none⟩

def bugHits : List Hit := [bugHitA, bugHitB1, bugHitB2, bugHitC, bugHitD]

/-- C5 counterexample input: six hits from four distinct sources, three of
them from source `A`, fed to the reranker with `k = 7 > len(hits)`. -/
def capHits : List Hit :=
  [⟨some 9, some ⟨some "a1", some "A", none⟩, none⟩,
   ⟨some 8, some ⟨some "a2", some "A", none⟩, none⟩,
   ⟨some 7, some ⟨some "a3", some "A", none⟩, none⟩,
   ⟨some 6, some ⟨some "b1", some "B", none⟩, none⟩,
   ⟨some 5, some ⟨some "c1", some "C", none⟩, none⟩,
   ⟨some 4, some ⟨some "d1", some "D", none⟩, none⟩]

/-- C6 counterexample input: a single hit, requested with `k = 0`. -/
def soloHit : Hit := ⟨some 1, some ⟨some "s1", some "S", none⟩, none⟩

/-- Witness hits for the reranker theorems. -/
def mmrW1 : Hit := ⟨some 5, some ⟨some "w1", some "A", none⟩, none⟩

def mmrW2 : Hit := ⟨some 4, some ⟨some "w2", some "B", none⟩, none⟩

def mmrW3 : Hit := ⟨some 3, some ⟨some "w3", some "A", none⟩, none⟩

/-- Environment whose retrieval step raises with message `"boom"`. -/
def envBoom : GenEnv :=
  ⟨Except.error "boom", fun _ => Except.error "unused", fun _ => Except.ok none⟩

/-- Environment with empty retrieval, unavailable token counting and a
blocked generation; used where the pipeline tail does not matter. -/
def envNeutral : GenEnv :=
  ⟨Except.ok ([], []), fun _ => Except.error "count unavailable",
    fun _ => Except.ok none⟩

/-- Environment whose model always answers `"hello"` with finish reason
`RECITATION`. -/
def envRecitation : GenEnv :=
  ⟨Except.ok ([], []), fun _ => Except.error "count unavailable",
    fun _ => Except.ok (some ⟨["hello"], "RECITATION"⟩)⟩

/-- Environment whose model always answers `"filtered answer"` with finish
reason `SAFETY`. -/
def envSafety : GenEnv :=
  ⟨Except.ok ([], []), fun _ => Except.error "count unavailable",
    fun _ => Except.ok (some ⟨["filtered answer"], "SAFETY"⟩)⟩

/-- Environment whose token counter reports `20001` tokens for any prompt. -/
def envOverflow : GenEnv :=
  ⟨Except.ok ([], []), fun _ => Except.ok 20001, fun _ => Except.ok none⟩

/-- A cache holding a fresh entry for the key of `("q", "cd")`. -/
def preloadedCache : Cache := [(_generate_cache_key "q" "cd", "cached answer", 0)]

/-- Search environment with the collection missing. -/
def envNoCollection : SearchEnv := ⟨false, Except.ok [], fun _ _ => Except.ok []⟩

section
attribute [local semireducible] Rat.add Rat.mul Rat.sub Rat.inv

/-- C2: evaluating the reranker at the failing input.  The code (double
increment) returns the `A, B, C` hits: after the single `B` selection the
`B` counter is already `2`, so the second `B` candidate is treated as capped
out.  The spec's increment-by-one selection keeps `B` eligible with bonus
`1.0` and returns the `A, B, B` hits instead. -/
theorem C2_double_increment_divergence :
    (applyMmrDiversityReranking bugHits 3 (1/2)).2
      = [setScore bugHitA, setScore bugHitB1, setScore bugHitC] ∧
    applyMmrSingleIncrement bugHits 3 (1/2)
      = [setScore bugHitA, setScore bugHitB1, setScore bugHitB2] := by
  decide

/-- C5 counterexample: with 6 hits from 4 distinct sources and `k = 7`, the
`len(hits) ≤ k` shortcut returns the input unchanged, so source `A`
contributes 3 chunks while the claimed cap is `max(2, 7 / 4) = 2`. -/
theorem C5_shortcut_cap_violation_cex :
    countBySource (applyMmrDiversityReranking capHits 7 (1/2)).2 "A" = 3 ∧
    max 2 (7 / 4) = 2 ∧
    (capHits.map sourceOf).dedup.length = 4 := by
  decide

/-- Witness for C5 (amended) at a concrete input (`k = 2`, three hits). -/
theorem C5_diversity_cap_witness :
    (1 ≤ 2 ∧ 2 < ([mmrW1, mmrW2, mmrW3] : List Hit).length) ∧
    ((applyMmrDiversityReranking [mmrW1, mmrW2, mmrW3] 2 (1/2)).2.length ≤ 2) ∧
    countBySource (applyMmrDiversityReranking [mmrW1, mmrW2, mmrW3] 2 (1/2)).2 "A"
      ≤ max 2 (2 / 4) :=
  ⟨⟨by decide, by decide⟩,
    (C5_diversity_cap [mmrW1, mmrW2, mmrW3] 2 (1/2) (by decide) (by decide)).1,
    (C5_diversity_cap [mmrW1, mmrW2, mmrW3] 2 (1/2) (by decide) (by decide)).2 "A"⟩

/-- C6 counterexample: a nonempty hit list with `k = 0` skips the shortcut
and still selects the seed hit, so the returned length is `1 > min(0, 1)`. -/
theorem C6_zero_k_cex :
    (applyMmrDiversityReranking [soloHit] 0 (1/2)).2.length = 1 ∧
    min 0 ([soloHit] : List Hit).length = 0 := by
  decide

/-- Witness for C6 (amended) at a concrete input (`k = 2`, three hits). -/
theorem C6_monotonic_safety_witness :
    (1 ≤ 2) ∧
    ((applyMmrDiversityReranking [mmrW1, mmrW2, mmrW3] 2 (1/2)).2.length
      ≤ min 2 ([mmrW1, mmrW2, mmrW3] : List Hit).length) ∧
    (∃ h ∈ ([mmrW1, mmrW2, mmrW3] : List Hit),
      setScore mmrW1 = h ∨ setScore mmrW1 = setScore h) :=
  ⟨by decide,
    (C6_monotonic_safety [mmrW1, mmrW2, mmrW3] 2 (1/2) (by decide)).1,
    (C6_monotonic_safety [mmrW1, mmrW2, mmrW3] 2 (1/2) (by decide)).2
      (setScore mmrW1) (by decide)⟩

/-- Witness for C9 at a concrete input (`k = 1`, two hits): the post-call
state of the caller's list has the `score` key written on every hit. -/
theorem C9_score_write_frame_effect_witness :
    (1 < ([mmrW1, mmrW2] : List Hit).length) ∧
    (applyMmrDiversityReranking [mmrW1, mmrW2] 1 (1/2)).1
      = [setScore mmrW1, setScore mmrW2] :=
  ⟨by decide, ((C9_score_write_frame_effect [mmrW1, mmrW2] 1 (1/2)).1 (by decide)).1⟩

/-- C1 counterexample: the top-level handler's returned answer embeds the
exception's message (`"boom"`) verbatim after the fixed prefix, so the
message is not sanitized. -/
theorem C1_message_contains_exception_cex :
    (generateResponse envBoom 0 [] "q" "hist" "cd").status = "error" ∧
    (generateResponse envBoom 0 [] "q" "hist" "cd").answer
      = "An unexpected error occurred: " ++ "boom" := by
  have heq : generateResponse envBoom 0 [] "q" "hist" "cd"
      = generateAfterCache envBoom 0 [] none false "q" "hist" "cd" := by
    unfold generateResponse
    rw [show (("hist" == "") || ("hist" == "No previous conversation")) = false from by decide]
    rfl
  rw [heq, generateAfterCache_retrieval_error envBoom 0 [] none false "q" "hist" "cd" "boom" rfl]
  exact ⟨rfl, rfl⟩

/-- C3 counterexample: `chat_history = "No previous conversation"` is a
non-empty string, yet the call reads the cache, returns the cached answer and
never invokes retrieval. -/
theorem C3_sentinel_history_uses_cache_cex :
    ("No previous conversation" : String) ≠ "" ∧
    (generateResponse envNeutral 0 preloadedCache "q" "No previous conversation" "cd").readCache
      = true ∧
    (generateResponse envNeutral 0 preloadedCache "q" "No previous conversation" "cd").answer
      = "cached answer" ∧
    (generateResponse envNeutral 0 preloadedCache "q" "No previous conversation" "cd").calledRetrieval
      = false := by
  have hlook : _get_cached_response 0 preloadedCache (_generate_cache_key "q" "cd")
      = (some "cached answer", preloadedCache) := by
    unfold _get_cached_response preloadedCache
    rw [List.find?_cons_of_pos _ (by simp)]
    dsimp only
    rw [if_pos (by decide)]
  refine ⟨by decide, ?_, ?_, ?_⟩ <;>
  · unfold generateResponse
    rw [show ((("No previous conversation" : String) == "")
        || (("No previous conversation" : String) == "No previous conversation")) = true
      from by decide]
    dsimp only
    rw [hlook]
    rfl

/-- C4 counterexample: a `RECITATION` finish reason returns the model text
unchanged (only stripped) — status `"success"` but no content-filtering
warning appended. -/
theorem C4_recitation_no_warning_cex :
    (generateResponse envRecitation 0 [] "q" "hist" "cd").status = "success" ∧
    (generateResponse envRecitation 0 [] "q" "hist" "cd").answer = "hello".trim := by
  have heq : generateResponse envRecitation 0 [] "q" "hist" "cd"
      = generateModelStep envRecitation 0 [] none false []
          (assembledPrompt "q" "hist" "cd" [] []) := by
    have h0 : generateResponse envRecitation 0 [] "q" "hist" "cd"
        = generateAfterCache envRecitation 0 [] none false "q" "hist" "cd" := by
      unfold generateResponse
      rw [show (("hist" == "") || ("hist" == "No previous conversation")) = false from by decide]
      rfl
    rw [h0]
    exact generateAfterCache_token_fail envRecitation 0 [] none false "q" "hist" "cd" [] []
      "count unavailable" rfl rfl
  obtain ⟨hs, ha⟩ := generateModelStep_success envRecitation 0 [] none false []
    (assembledPrompt "q" "hist" "cd" [] []) ⟨["hello"], "RECITATION"⟩ "hello" [] rfl rfl
  rw [heq]
  exact ⟨hs, by rw [ha]; rfl⟩

end

/-- Witness for C4 (amended) at a concrete input: the `SAFETY` case. -/
theorem C4_safety_warned_witness :
    (((_get_cached_response 0 [] (_generate_cache_key "q" "cd")).1.getD "") = "") ∧
    (generateResponse envSafety 0 [] "q" "hist" "cd").status = "success" ∧
    (generateResponse envSafety 0 [] "q" "hist" "cd").answer
      = "filtered answer".trim ++ SAFETY_WARNING :=
  ⟨by decide,
    (C4_safety_warned_recitation_not envSafety 0 [] "q" "hist" "cd"
      ⟨["filtered answer"], "SAFETY"⟩ "filtered answer" [] (by decide)
      ⟨[], [], rfl⟩ (fun _ n h => Except.noConfusion h) (fun _ => rfl) rfl).1 rfl⟩

/-- Witness for C7 at a concrete input: a stub token counter reporting
`20001 > 16000` tokens yields an error without invoking generation. -/
theorem C7_token_budget_check_witness :
    ((((_get_cached_response 0 [] (_generate_cache_key "q" "cd")).1.getD "") = "") ∧
      envOverflow.retrieval = Except.ok ([], []) ∧
      PROMPT_TOKEN_LIMIT < 20001) ∧
    (generateResponse envOverflow 0 [] "q" "hist" "cd").status = "error" ∧
    (generateResponse envOverflow 0 [] "q" "hist" "cd").calledGenerate = false :=
  ⟨⟨by decide, rfl, by decide⟩,
    ((C7_token_budget_check envOverflow 0 [] "q" "hist" "cd" [] []
      (by decide) rfl).1 20001 rfl (by decide)).1,
    ((C7_token_budget_check envOverflow 0 [] "q" "hist" "cd" [] []
      (by decide) rfl).1 20001 rfl (by decide)).2.1⟩

/-- C10: on the collection-missing, zero-hits and internal-exception branches,
`search_legal_knowledge` returns a human-readable message string as the first
component of its result (not a chunk list) paired with an empty source list. -/
theorem C10_error_branches_return_message (env : SearchEnv) (k : Nat) :
    (env.collectionExists = false →
      search_legal_knowledge env k =
        (.message "Collection not found. Please ensure it is created and named correctly.", [])) ∧
    (∀ e, env.collectionExists = true → env.embedding = Except.error e →
      search_legal_knowledge env k =
        (.message ("An error occurred during search: " ++ e), [])) ∧
    (∀ v e, env.collectionExists = true → env.embedding = Except.ok v →
      env.searchCall v (min (k * 6) 50) = Except.error e →
      search_legal_knowledge env k =
        (.message ("An error occurred during search: " ++ e), [])) ∧
    (∀ v res, env.collectionExists = true → env.embedding = Except.ok v →
      env.searchCall v (min (k * 6) 50) = Except.ok res →
      (res = [] ∨ res.headD [] = []) →
      search_legal_knowledge env k =
        (.message "No relevant legal information found in the knowledge base.", [])) := by
  refine ⟨?_, ?_, ?_, ?_⟩
  · intro h
    unfold search_legal_knowledge
    rw [h]
    simp
  · intro e hcol hemb
    unfold search_legal_knowledge
    rw [hcol]
    rw [if_neg (by simp)]
    rw [hemb]
  · intro v e hcol hemb hsearch
    unfold search_legal_knowledge
    rw [hcol]
    rw [if_neg (by simp)]
    rw [hemb]
    dsimp only
    rw [hsearch]
  · intro v res hcol hemb hsearch hres
    unfold search_legal_knowledge
    rw [hcol]
    rw [if_neg (by simp)]
    rw [hemb]
    dsimp only
    rw [hsearch]
    dsimp only
    rw [if_pos hres]

/-- Witness for C10 at a concrete input: the collection-missing branch. -/
theorem C10_error_branches_witness :
    envNoCollection.collectionExists = false ∧
    search_legal_knowledge envNoCollection 5 =
      (.message "Collection not found. Please ensure it is created and named correctly.", []) :=
  ⟨rfl, (C10_error_branches_return_message envNoCollection 5).1 rfl⟩
